import Mathlib

/-!
Verification of the wake/counter/format core of the mechanical-watch
e-paper display firmware (src/src/main.cpp).

The firmware's state-relevant behaviour per wake cycle is:
  * decode which ext1 wake line fired (`get_ext1_wakeup_pin`,
    `log(status)/log(2)` truncated to int, embedded here as `Nat.log 2`);
  * if the decoded pin is GPIO 33, force `minuteCount` to the sentinel -1;
  * increment `bootCount` by 1 unconditionally;
  * increment `minuteCount` by 1 unconditionally, then wrap to 0 when it
    reaches 24*60;
  * format the result as `"%02d:%02d"` of `minuteCount / 60` and
    `minuteCount % 60`.
Display, serial output and sleep re-arm have no effect on the persistent
state and are not modelled.
-/

namespace WatchEpaper

/-- GPIO number of the "minute increment" (tick) wake line. -/
def GPIO_NUM_32 : Nat := 32

/-- GPIO number of the "reset to zero minutes" wake line. -/
def GPIO_NUM_33 : Nat := 33

/-- Mask for GPIO#32 and GPIO#33 pins that wake the ESP32 from deep sleep
(`#define BUTTON_PIN_BITMASK 0x300000000` in main.cpp). -/
def BUTTON_PIN_BITMASK : Nat := 0x300000000

/-- `const int minuteCountStart = ((23 * 60) + 58) - 1;` from main.cpp. -/
def minuteCountStart : Int := ((23 * 60) + 58) - 1

/-- `RTC_DATA_ATTR int bootCount = 0;` initial value. -/
def bootCountInit : Int := 0

/-- The two integers held in the RTC (deep-sleep-surviving) memory region. -/
structure State where
  bootCount : Int
  minuteCount : Int
  deriving DecidableEq, Repr

/-- The persistent state as initialised on first-ever power-up. -/
def initialState : State :=
  { bootCount := bootCountInit, minuteCount := minuteCountStart }

/-- Embedding of `get_ext1_wakeup_pin` from main.cpp: the code computes
`log(wakeup_pin_base2)/log(2)` in double precision and truncates to `int`;
under exact real-logarithm semantics (with nonneg truncation = floor) this
is the floor base-2 logarithm of the ext1 wake-status word, i.e.
`Nat.log 2`.  `get_ext1_wakeup_pin_models_real_log` below proves the
embedding agrees with the real-arithmetic reading of the source formula. -/
def get_ext1_wakeup_pin (wakeup_pin_base2 : Nat) : Nat :=
  Nat.log 2 wakeup_pin_base2

/-- `const int maxMinutes = 24 * 60;` from setup(). -/
def maxMinutes : Int := 24 * 60

/-- `const int minMinutes = 0;` from setup(). -/
def minMinutes : Int := 0

/-- One wake cycle's effect on the persistent state, given the ext1
wake-status word `status`.  Embeds, in source order, the state-mutating
lines of `setup()` in main.cpp:
`if (wakeup_pin == GPIO_NUM_33) minuteCount = -1;` then `++bootCount;`
then `++minuteCount; if (minuteCount >= maxMinutes) minuteCount = minMinutes;`. -/
def cycle (status : Nat) (s : State) : State :=
  let wakeup_pin := get_ext1_wakeup_pin status
  let mcAfterReset : Int :=
    if wakeup_pin = GPIO_NUM_33 then -1 else s.minuteCount
  let bc := s.bootCount + 1
  let mcIncremented := mcAfterReset + 1
  let mcWrapped := if mcIncremented ≥ maxMinutes then minMinutes else mcIncremented
  { bootCount := bc, minuteCount := mcWrapped }

/-- Effect of `"%02d"` (via `string_format`/`vsnprintf` in main.cpp) on a
nonnegative argument below 100: the decimal rendering left-padded with
zeros to width two. -/
def pad2 (n : Nat) : String :=
  if n < 10 then "0" ++ toString n else toString n

/-- The display string built in `setup()`:
`hours = minuteCount / 60; minutes = minuteCount % 60;`
`string_format("%02d:%02d", hours, minutes)`.  The post-update counter is
nonnegative (invariant), where C++ `/` and `%` agree with `Nat` division
and remainder, hence the `Int.toNat` view. -/
def formatTime (minuteCount : Int) : String :=
  pad2 (minuteCount.toNat / 60) ++ ":" ++ pad2 (minuteCount.toNat % 60)

/-- Modelled from the spec: the test-only inverse of the `HH:MM` formatting
(`parse(format(m)) == m`), which the repository does not contain under
src/.  Reads the two hour digits and the two minute digits of a 5-character
`HH:MM` string and returns `hours * 60 + minutes`; any other shape maps
to 0. -/
def parseTime (s : String) : Nat :=
  match s.data with
  | [h1, h2, _, m1, m2] =>
      ((h1.toNat - 48) * 10 + (h2.toNat - 48)) * 60 +
        ((m1.toNat - 48) * 10 + (m2.toNat - 48))
  | _ => 0

/-! ## Supporting lemmas -/

/-- A cycle whose wake status decodes to GPIO 33 ends with `minuteCount = 0`:
the sentinel -1 is written, the unconditional increment yields 0, and
`0 < 24*60` means the wrap branch is not taken. -/
lemma cycle_minuteCount_of_pin33 (status : Nat) (s : State)
    (h : get_ext1_wakeup_pin status = GPIO_NUM_33) :
    (cycle status s).minuteCount = 0 := by
  simp [cycle, h, maxMinutes, minMinutes]

/-- A cycle whose wake status does not decode to GPIO 33 leaves the reset
branch untaken, so from any in-range counter it performs exactly one
increment with wrap at 1440. -/
lemma cycle_minuteCount_of_ne33 (status : Nat) (s : State)
    (h : get_ext1_wakeup_pin status ≠ GPIO_NUM_33)
    (h0 : 0 ≤ s.minuteCount) (h1 : s.minuteCount < 1440) :
    (cycle status s).minuteCount = (s.minuteCount + 1) % 1440 := by
  simp only [cycle, if_neg h, maxMinutes, minMinutes]
  split <;> omega

/-- `"%02d"` on an argument in [0,100) yields exactly the two decimal
digits. -/
lemma pad2_data : ∀ n : Nat, n < 100 →
    (pad2 n).data = [Char.ofNat (48 + n / 10), Char.ofNat (48 + n % 10)] := by
  decide

/-- `"%02d"` on an argument in [0,100) yields a string of length 2. -/
lemma pad2_length : ∀ n : Nat, n < 100 → (pad2 n).length = 2 := by
  decide

/-- ASCII code points survive the `Char.ofNat`/`Char.toNat` round trip. -/
lemma char_toNat_ofNat : ∀ v : Nat, v < 128 → (Char.ofNat v).toNat = v := by
  decide

/-- Parsing an `HH:MM` string built from two two-digit fields recovers
`hours * 60 + minutes`. -/
lemma parseTime_pad2 (h mi : Nat) (hh : h < 100) (hm : mi < 100) :
    parseTime (pad2 h ++ ":" ++ pad2 mi) = h * 60 + mi := by
  have dh := pad2_data h hh
  have dm := pad2_data mi hm
  unfold parseTime
  rw [String.data_append, String.data_append, dh, dm]
  show (((Char.ofNat (48 + h / 10)).toNat - 48) * 10 +
      ((Char.ofNat (48 + h % 10)).toNat - 48)) * 60 +
      (((Char.ofNat (48 + mi / 10)).toNat - 48) * 10 +
      ((Char.ofNat (48 + mi % 10)).toNat - 48)) = h * 60 + mi
  rw [char_toNat_ofNat (48 + h / 10) (by omega),
      char_toNat_ofNat (48 + h % 10) (by omega),
      char_toNat_ofNat (48 + mi / 10) (by omega),
      char_toNat_ofNat (48 + mi % 10) (by omega)]
  omega

/-- The embedding `Nat.log 2` is the real-arithmetic reading of the source
formula `log(x)/log(2)` (floor, which equals C's truncation toward zero on
the nonnegative values that arise): for every status word `n`,
`⌊Real.log n / Real.log 2⌋ = Nat.log 2 n`. -/
theorem get_ext1_wakeup_pin_models_real_log (n : Nat) :
    ⌊Real.log n / Real.log 2⌋ = (get_ext1_wakeup_pin n : Int) := by
  have h : Real.log (n : ℝ) / Real.log 2 = Real.logb ((2 : ℕ) : ℝ) (n : ℝ) := by
    rw [Real.logb]; norm_num
  rw [h, Real.floor_logb_natCast (Nat.cast_nonneg n), Int.log_natCast]
  rfl

/-! ## Claim theorems -/

/-- C1: for every prior `minuteCount` and a cycle whose ext1 wake status
decodes to the zero line GPIO 33, the post-update `minuteCount` is 0,
unconditionally: the sentinel -1 is written, the unconditional `+1` yields
0, and the wrap step leaves it at 0. -/
theorem reset_cycle_zeroes_counter (status : Nat) (s : State)
    (h : get_ext1_wakeup_pin status = GPIO_NUM_33) :
    (cycle status s).minuteCount = 0 :=
  cycle_minuteCount_of_pin33 status s h

/-- Witness for C1: wake status `2^33` (only GPIO 33 set) zeroes the
counter from prior value 723. -/
theorem reset_cycle_zeroes_counter_witness :
    (cycle (2 ^ 33) { bootCount := 7, minuteCount := 723 }).minuteCount = 0 :=
  reset_cycle_zeroes_counter (2 ^ 33) _ (Nat.log_pow (by norm_num) 33)

/-- C2: for every prior `minuteCount` in [0,1440) and a cycle whose wake
status does not decode to GPIO 33, the post-update value is
`(m + 1) % 1440`: incremented exactly once and wrapped to 0 at 1440. -/
theorem increment_cycle_adds_one (status : Nat) (s : State)
    (h : get_ext1_wakeup_pin status ≠ GPIO_NUM_33)
    (h0 : 0 ≤ s.minuteCount) (h1 : s.minuteCount < 1440) :
    (cycle status s).minuteCount = (s.minuteCount + 1) % 1440 :=
  cycle_minuteCount_of_ne33 status s h h0 h1

/-- Witness for C2: wake status `2^32` (only GPIO 32 set) advances the
counter from 0 to 1. -/
theorem increment_cycle_adds_one_witness :
    (cycle (2 ^ 32) { bootCount := 0, minuteCount := 0 }).minuteCount
      = ((0 : Int) + 1) % 1440 :=
  increment_cycle_adds_one (2 ^ 32) _
    (by rw [show get_ext1_wakeup_pin (2 ^ 32) = 32 from Nat.log_pow (by norm_num) 32]; decide)
    (by decide) (by decide)

/-- C3: the counter-update step re-establishes `0 ≤ minuteCount < 1440`
from every state the cycle can start in: any value in [0,1440), the reset
sentinel -1, and in particular the first boot's initial state (whose
counter 1437 lies in the hypothesis range). -/
theorem counter_range_invariant (status : Nat) (s : State)
    (h0 : -1 ≤ s.minuteCount) (h1 : s.minuteCount < 1440) :
    0 ≤ (cycle status s).minuteCount ∧ (cycle status s).minuteCount < 1440 := by
  simp only [cycle, maxMinutes, minMinutes]
  constructor <;> split <;> split <;> omega

/-- Witness for C3: the invariant holds after a cycle from the first-boot
initial state. -/
theorem counter_range_invariant_witness :
    0 ≤ (cycle (2 ^ 33) initialState).minuteCount ∧
      (cycle (2 ^ 33) initialState).minuteCount < 1440 :=
  counter_range_invariant (2 ^ 33) initialState (by decide) (by decide)

/-- C4: the display string is the pure function
`pad2 (m / 60) ++ ":" ++ pad2 (m % 60)` of the post-update counter, is
always exactly 5 characters, with hours in [0,24) and minutes in [0,60). -/
theorem format_pure_and_shaped (m : Int) (h0 : 0 ≤ m) (h1 : m < 1440) :
    formatTime m = pad2 (m.toNat / 60) ++ ":" ++ pad2 (m.toNat % 60) ∧
      (formatTime m).length = 5 ∧ m.toNat / 60 < 24 ∧ m.toNat % 60 < 60 := by
  refine ⟨rfl, ?_, by omega, by omega⟩
  have hh : m.toNat / 60 < 100 := by omega
  have hm : m.toNat % 60 < 100 := by omega
  rw [formatTime, String.length_append, String.length_append,
      pad2_length _ hh, pad2_length _ hm]
  rfl

/-- Witness for C4: the counter value 723 formats as the 5-character
string "12:03". -/
theorem format_pure_and_shaped_witness :
    formatTime 723 = pad2 ((723 : Int).toNat / 60) ++ ":" ++ pad2 ((723 : Int).toNat % 60) ∧
      (formatTime 723).length = 5 ∧ (723 : Int).toNat / 60 < 24 ∧ (723 : Int).toNat % 60 < 60 :=
  format_pure_and_shaped 723 (by decide) (by decide)

/-- C5 counterexample: the initial counter is `((23*60)+58)-1 = 1437`, not
1436, and the first tick cycle from the initial state yields 1438, not
1437. -/
theorem start_offset_counterexample :
    minuteCountStart ≠ 1436 ∧
      (cycle (2 ^ 32) initialState).minuteCount ≠ 1437 := by
  refine ⟨by decide, ?_⟩
  rw [cycle_minuteCount_of_ne33 (2 ^ 32) initialState
    (by rw [show get_ext1_wakeup_pin (2 ^ 32) = 32 from Nat.log_pow (by norm_num) 32]; decide)
    (by decide) (by decide)]
  decide

/-- C5 amended: `minuteCount` is initialized on first-ever power-up to the
starting offset 1437 (`((23*60)+58)-1`, one minute before 23h58m), so that
the first cycle with a tick wake produces `minuteCount = 1438` and the
display string "23:58". -/
theorem start_offset_amended (status : Nat) (s : State)
    (hs : s.minuteCount = minuteCountStart)
    (h : get_ext1_wakeup_pin status ≠ GPIO_NUM_33) :
    minuteCountStart = 1437 ∧ (cycle status s).minuteCount = 1438 ∧
      formatTime (cycle status s).minuteCount = "23:58" := by
  have hc : (cycle status s).minuteCount = 1438 := by
    rw [cycle_minuteCount_of_ne33 status s h (by rw [hs]; decide) (by rw [hs]; decide), hs]
    decide
  exact ⟨by decide, hc, by rw [hc]; decide⟩

/-- Witness for C5 amended: a GPIO-32 tick from the initial state shows
"23:58". -/
theorem start_offset_amended_witness :
    minuteCountStart = 1437 ∧ (cycle (2 ^ 32) initialState).minuteCount = 1438 ∧
      formatTime (cycle (2 ^ 32) initialState).minuteCount = "23:58" :=
  start_offset_amended (2 ^ 32) initialState rfl
    (by rw [show get_ext1_wakeup_pin (2 ^ 32) = 32 from Nat.log_pow (by norm_num) 32]; decide)

/-- C6: for every ext1 wake-status word with exactly one bit set, at
zero-based position `k` (value `2^k`), `get_ext1_wakeup_pin` returns `k`. -/
theorem single_bit_decodes_to_position (k : Nat) :
    get_ext1_wakeup_pin (2 ^ k) = k :=
  Nat.log_pow (by norm_num) k

/-- C7: the edge policy defaults to increment: status 0 (no wake-capable
line set, e.g. power-on reset) does not decode to the zero line, and every
status not decoding to GPIO 33 leaves the reset branch untaken, so the
cycle advances the carried-over counter by exactly one (mod 1440). -/
theorem default_policy_is_increment (s : State)
    (h0 : 0 ≤ s.minuteCount) (h1 : s.minuteCount < 1440) :
    get_ext1_wakeup_pin 0 ≠ GPIO_NUM_33 ∧
      ∀ status : Nat, get_ext1_wakeup_pin status ≠ GPIO_NUM_33 →
        (cycle status s).minuteCount = (s.minuteCount + 1) % 1440 := by
  refine ⟨?_, fun status h => cycle_minuteCount_of_ne33 status s h h0 h1⟩
  rw [get_ext1_wakeup_pin, Nat.log_zero_right]
  decide

/-- Witness for C7: from counter 59, a status-0 boot (via the second
conjunct at status 0) behaves as an ordinary increment. -/
theorem default_policy_is_increment_witness :
    get_ext1_wakeup_pin 0 ≠ GPIO_NUM_33 ∧
      ∀ status : Nat, get_ext1_wakeup_pin status ≠ GPIO_NUM_33 →
        (cycle status { bootCount := 3, minuteCount := 59 }).minuteCount
          = ((59 : Int) + 1) % 1440 :=
  default_policy_is_increment { bootCount := 3, minuteCount := 59 }
    (by decide) (by decide)

/-- C8: `bootCount` starts at 0 on first-ever power-up, and every cycle
increments it by exactly 1 regardless of the wake status, so it never
decreases. -/
theorem bootcount_monotone_increment :
    initialState.bootCount = 0 ∧
      ∀ (status : Nat) (s : State),
        (cycle status s).bootCount = s.bootCount + 1 ∧
          s.bootCount ≤ (cycle status s).bootCount := by
  refine ⟨rfl, fun status s => ?_⟩
  constructor
  · rfl
  · show s.bootCount ≤ s.bootCount + 1
    omega

/-- C9: parsing the formatted display string back (hours field times 60
plus minutes field) recovers the counter: the formatter is injective on
[0,1440). -/
theorem format_roundtrip (m : Int) (h0 : 0 ≤ m) (h1 : m < 1440) :
    (parseTime (formatTime m) : Int) = m := by
  have hh : m.toNat / 60 < 100 := by omega
  have hm : m.toNat % 60 < 100 := by omega
  rw [formatTime, parseTime_pad2 _ _ hh hm]
  omega

/-- Witness for C9: the round trip at counter value 1234. -/
theorem format_roundtrip_witness :
    (parseTime (formatTime 1234) : Int) = 1234 :=
  format_roundtrip 1234 (by decide) (by decide)

/-- C10: when both wake lines fire simultaneously the ext1 status is the
full `BUTTON_PIN_BITMASK 0x300000000`; the logarithm-based decoding maps
it to 33 — the zero line — so the cycle behaves exactly as a reset and the
post-update counter is 0, from any prior state. -/
theorem simultaneous_press_acts_as_reset :
    get_ext1_wakeup_pin BUTTON_PIN_BITMASK = GPIO_NUM_33 ∧
      ∀ s : State, (cycle BUTTON_PIN_BITMASK s).minuteCount = 0 := by
  have hpin : get_ext1_wakeup_pin BUTTON_PIN_BITMASK = GPIO_NUM_33 := by
    rw [get_ext1_wakeup_pin, GPIO_NUM_33, BUTTON_PIN_BITMASK]
    exact Nat.log_eq_of_pow_le_of_lt_pow (by norm_num) (by norm_num)
  exact ⟨hpin, fun s => cycle_minuteCount_of_pin33 BUTTON_PIN_BITMASK s hpin⟩

end WatchEpaper
